import Mathlib

/-!
# hoverbot: pipeline shutdown handshake, bus dispatch, stats exit policy

A shallow embedding of

* `mech/gst_helpers.cc`: `MuxerForVideoName`, `PipelineWrapper::HandleBusMessage`,
  `PipelineWrapper::HandleShutdown`;
* `mech/video_controller_app.h`: `VideoControllerApp::HandleStats`.

Conventions of the embedding.

* A C++ call either returns, or ends the process through `base::Fail`, or ends
  it through a failed `BOOST_ASSERT`, or throws.  `Status` records which.
  `BOOST_ASSERT` is modelled as an active check (the default expansion to
  `assert`, without `NDEBUG`).
* A member function is a function from the object state to a `Result`: the
  object state when the call ended, the calls it made on its collaborators in
  order (`trace`), and the `Status`.
* `int` values are `Int`; where the code casts or increments, the 32 bit
  two's complement wrap is written out (`wrap_int`).
* A `std::string` is a `String`, one `Char` standing for one `char`.
-/

namespace mjmech

/-! ## Outcomes of a call -/

/-- How a call ended. -/
inductive Status (α : Type) where
  /-- normal return with a value -/
  | returned (a : α)
  /-- the process was ended by `base::Fail(msg)` -/
  | failed (msg : String)
  /-- the process was ended by a `BOOST_ASSERT(expr)` whose condition was false -/
  | assert_failed (expr : String)
  /-- a C++ exception left the function -/
  | thrown (what : String)
  deriving DecidableEq, Repr

/-- The state of the object when the call ended, the external calls made (in
order), and how the call ended. -/
structure Result (ε σ α : Type) where
  state : σ
  trace : List ε
  status : Status α

/-- A member function: it runs from an object state. -/
def Exec (ε σ α : Type) : Type := σ → Result ε σ α

namespace Exec

variable {ε σ α β : Type}

/-- Return `a`, no effect. -/
def ret (a : α) : Exec ε σ α := fun s => ⟨s, [], .returned a⟩

/-- Sequencing: the second part runs only when the first part returned. -/
def seq (m : Exec ε σ α) (f : α → Exec ε σ β) : Exec ε σ β := fun s =>
  let r := m s
  match r.status with
  | .returned a =>
    let r2 := f a r.state
    ⟨r2.state, r.trace ++ r2.trace, r2.status⟩
  | .failed msg => ⟨r.state, r.trace, .failed msg⟩
  | .assert_failed e => ⟨r.state, r.trace, .assert_failed e⟩
  | .thrown w => ⟨r.state, r.trace, .thrown w⟩

instance : Monad (Exec ε σ) where
  pure := ret
  bind := seq

/-- Read the object state. -/
def read : Exec ε σ σ := fun s => ⟨s, [], .returned s⟩

/-- Overwrite the object state. -/
def write (s : σ) : Exec ε σ Unit := fun _ => ⟨s, [], .returned ()⟩

/-- One call on a collaborator. -/
def emit (e : ε) : Exec ε σ Unit := fun s => ⟨s, [e], .returned ()⟩

/-- A `BOOST_ASSERT(cond)`: nothing when `cond` holds, otherwise the process
is aborted at this point. `expr` is the text of the asserted expression. -/
def BOOST_ASSERT (cond : Bool) (expr : String) : Exec ε σ Unit := fun s =>
  if cond then ⟨s, [], .returned ()⟩ else ⟨s, [], .assert_failed expr⟩

end Exec

namespace base

/-- Modelled from the spec: `base::Fail` (declared in `base/fail.h`, which is
not among the sources). "A call that logs a formatted message and
unconditionally terminates the process": the call never returns, and the
status keeps the message. -/
def Fail {α : Type} (msg : String) : Status α := .failed msg

/-- The call `base::Fail(msg)` inside a member function: the process ends
there, with the object state and the trace as they are. -/
def FailExec {ε σ α : Type} (msg : String) : Exec ε σ α := fun s => ⟨s, [], Fail msg⟩

end base

/-! ## C++ integers and strings -/

/-- The value an `int` holds after a result `x` is stored in it (32 bit two's
complement). Inside the range of `int` it is `x`; outside it the C++ standard
leaves signed overflow undefined and an out-of-range conversion
implementation-defined, and the wrap is what the compiled code does. The
theorems below that depend on it are stated inside the range. -/
def wrap_int (x : Int) : Int := (x + 2147483648) % 4294967296 - 2147483648

/-- `static_cast<int>(n)` for a `size_t` value `n`. -/
def static_cast_int (n : Nat) : Int := wrap_int (n : Int)

/-- `std::string::substr(pos)`: the characters from `pos` to the end; it
throws `std::out_of_range` when `pos` is past the end. -/
def substr (s : String) (pos : Nat) : Status String :=
  if pos > s.length then .thrown "std::out_of_range" else .returned ⟨s.data.drop pos⟩

/-- Evaluation order of an expression whose first part may end the call: the
rest runs on the value only when the first part returned. -/
def Status.andThen {α β : Type} (r : Status α) (f : α → Status β) : Status β :=
  match r with
  | .returned a => f a
  | .failed msg => .failed msg
  | .assert_failed e => .assert_failed e
  | .thrown w => .thrown w

namespace mech

open Exec

namespace gst

/-- `MuxerForVideoName` of `mech/gst_helpers.cc`. -/
def MuxerForVideoName (name : String) : Status String :=
  (substr name (max 0 (wrap_int (static_cast_int name.length - 4))).toNat).andThen fun tail =>
    if tail = ".mkv" then
      .returned "matroskamux streamable=true"
    else if tail = ".avi" then
      .returned "avimux"
    else if tail = ".mp4" then
      .returned "mp4mux"
    else
      base.Fail ("Unknown h264 savefile extension " ++ tail)

/-- The last four characters of a name, the whole name when it is shorter. -/
def last_four (name : String) : String := ⟨name.data.drop (name.length - 4)⟩

/-- The branches of `MuxerForVideoName` once `tail` is known. -/
def muxer_of_tail (tail : String) : Status String :=
  if tail = ".mkv" then .returned "matroskamux streamable=true"
  else if tail = ".avi" then .returned "avimux"
  else if tail = ".mp4" then .returned "mp4mux"
  else .failed ("Unknown h264 savefile extension " ++ tail)

/-! ## The pipeline wrapper -/

/-- Identity of a thread (`std::thread::id`). -/
abbrev ThreadId := Nat

/-- Identity of one quit postponer object, the shutdown ticket. -/
abbrev Ticket := Nat

/-- Modelled from the spec: `GstMainLoopRefObj::QuitPostponerPtr` (declared in
`mech/gst_main_loop.h`, which is not among the sources). The quit request
"delivers a consumable ticket object"; the code tests it with `!`, clears it
with `reset()` and copies it by assignment, so it is a shared pointer: empty
(`none`) or holding a ticket. -/
abbrev QuitPostponerPtr := Option Ticket

/-- `GstState` of the engine. -/
inductive GstState where
  | VOID_PENDING | NULL | READY | PAUSED | PLAYING
  deriving DecidableEq, Repr

/-- `GstStateChangeReturn` of the engine: 0 is failure, 1 is success, 2 is
async, 3 is no-preroll. -/
inductive GstStateChangeReturn where
  | FAILURE | SUCCESS | ASYNC | NO_PREROLL
  deriving DecidableEq, Repr

/-- `GstMessageType` values are the engine's integer flags. -/
abbrev GstMessageType := Nat

def GST_MESSAGE_EOS : GstMessageType := 1
def GST_MESSAGE_ERROR : GstMessageType := 2
def GST_MESSAGE_TAG : GstMessageType := 16
def GST_MESSAGE_STATE_CHANGED : GstMessageType := 64
def GST_MESSAGE_NEW_CLOCK : GstMessageType := 2048
def GST_MESSAGE_STREAM_STATUS : GstMessageType := 8192
def GST_MESSAGE_ASYNC_DONE : GstMessageType := 2097152

/-- What the handler reads from a `GstMessage`. -/
structure GstMessage where
  /-- `GST_MESSAGE_TYPE(message)` -/
  type : GstMessageType
  /-- `GST_MESSAGE_TYPE_NAME(message)` -/
  type_name : String
  /-- `GST_MESSAGE_SRC_NAME(message)` -/
  src_name : String
  /-- `gst_structure_to_string` of `gst_message_get_structure(message)`,
  `none` when the message has no structure -/
  mstruct : Option String
  /-- `err->message` as `gst_message_parse_error` gives it, `none` when `err`
  stays null -/
  err : Option String
  /-- `dbg` as `gst_message_parse_error` gives it, `none` when it stays null -/
  dbg : Option String
  deriving DecidableEq, Repr

/-- The calls the wrapper makes on its collaborators. -/
inductive Effect where
  /-- `gst_element_send_event(pipeline_, gst_event_new_eos())` -/
  | send_event_eos
  /-- `gst_element_set_state(pipeline_, st)` -/
  | set_state (st : GstState)
  /-- the wrapper gives up its reference to ticket `t` -/
  | ticket_released (t : Ticket)
  /-- `log_.debug(msg)` -/
  | log_debug (msg : String)
  /-- `bus_log_.debugStream() << msg` -/
  | bus_log_debug (msg : String)
  deriving DecidableEq, Repr

/-- The effects that act on the pipeline or on the ticket (the log lines
are the others). -/
def Effect.isCommand : Effect → Bool
  | .send_event_eos => true
  | .set_state _ => true
  | .ticket_released _ => true
  | .log_debug _ => false
  | .bus_log_debug _ => false

/-- The members of `PipelineWrapper` the two handlers read or write. -/
structure PipelineWrapper where
  /-- `gst_loop_->thread_id()` -/
  gst_loop_thread_id : ThreadId
  /-- `quit_request_` -/
  quit_request_ : QuitPostponerPtr
  deriving DecidableEq, Repr

/-- What a handler call gets from outside the wrapper. -/
structure Env where
  /-- `std::this_thread::get_id()` -/
  this_thread : ThreadId
  /-- what `gst_element_set_state(pipeline_, GST_STATE_NULL)` returns -/
  set_state_null_rv : GstStateChangeReturn
  /-- `bus_log_.isDebugEnabled()` -/
  bus_debug_enabled : Bool
  deriving DecidableEq, Repr

/-- `quit_request_.reset()`: the reference held, if any, is given up and the
member is empty afterwards. -/
def quit_request_reset : Exec Effect PipelineWrapper Unit := do
  let self ← read
  match self.quit_request_ with
  | some t =>
    emit (.ticket_released t)
    write { self with quit_request_ := none }
  | none => pure ()

/-- `quit_request_ = ptr`: the reference held before, if any, is given up and
the member holds `ptr` afterwards. -/
def quit_request_assign (ptr : QuitPostponerPtr) : Exec Effect PipelineWrapper Unit := do
  let self ← read
  match self.quit_request_ with
  | some t => emit (.ticket_released t)
  | none => pure ()
  write { self with quit_request_ := ptr }

/-- The text built from `gst_message_parse_error` in the error case. -/
def error_msg (message : GstMessage) : String :=
  match message.err with
  | some m =>
    m ++ "\nDebug details: " ++ (match message.dbg with | some d => d | none => "(NONE)")
  | none => "(no error)"

/-- The line written to the bus log for a printed message. -/
def bus_log_line (message : GstMessage) : String :=
  let struct_info := match message.mstruct with
    | some str => str
    | none => "no-struct"
  "message \x27" ++ message.type_name ++ "\x27 from \x27" ++ message.src_name
    ++ "\x27: " ++ struct_info

/-- `PipelineWrapper::HandleBusMessage` of `mech/gst_helpers.cc`. -/
def HandleBusMessage (env : Env) (message : GstMessage) :
    Exec Effect PipelineWrapper Bool := do
  let self ← read
  BOOST_ASSERT (env.this_thread == self.gst_loop_thread_id)
    "std::this_thread::get_id() == gst_loop_->thread_id()"
  let mut print_message := true
  if message.type = GST_MESSAGE_EOS then
    if self.quit_request_.isNone then
      base.FailExec "Unexpected EOS on pipeline"
    emit (.log_debug "got EOS -- stopping pipeline")
    emit (.set_state .NULL)
    let rv := env.set_state_null_rv
    BOOST_ASSERT (rv == .SUCCESS) "rv == GST_STATE_CHANGE_SUCCESS"
    quit_request_reset
    print_message := false
  else if message.type = GST_MESSAGE_ERROR then
    base.FailExec ("gstreamer pipeline error: " ++ error_msg message)
  else if message.type = GST_MESSAGE_STATE_CHANGED
      ∨ message.type = GST_MESSAGE_STREAM_STATUS
      ∨ message.type = GST_MESSAGE_TAG
      ∨ message.type = GST_MESSAGE_NEW_CLOCK
      ∨ message.type = GST_MESSAGE_ASYNC_DONE then
    print_message := false
  else
    pure ()
  if print_message && env.bus_debug_enabled then
    emit (.bus_log_debug (bus_log_line message))
  return true

/-- `PipelineWrapper::HandleShutdown` of `mech/gst_helpers.cc`. -/
def HandleShutdown (env : Env) (ptr : QuitPostponerPtr) :
    Exec Effect PipelineWrapper Unit := do
  let self ← read
  BOOST_ASSERT (env.this_thread == self.gst_loop_thread_id)
    "std::this_thread::get_id() == gst_loop_->thread_id()"
  BOOST_ASSERT self.quit_request_.isNone "!quit_request_"
  quit_request_assign ptr
  emit .send_event_eos
  emit (.log_debug "shutdown requested -- sending end-of-stream")

end gst

/-! ## The controller app -/

/-- Modelled from the spec: `VideoDisplay::Stats` (declared in
`mech/video_display.h`, which is not among the sources). "A stats payload
carries three frame-count fields (raw, intermediate/h264, decoded)"; the names
are those `HandleStats` reads. -/
structure Stats where
  raw_frames : Int
  h264_frames : Int
  decoded_frames : Int
  deriving DecidableEq, Repr

/-- `VideoControllerApp::Parameters`, without the children. -/
structure Parameters where
  /-- if non-zero, exit after that many stats messages are received -/
  max_stats : Int
  /-- if True, crash when stats do indicate the video is not working -/
  require_stats_good : Bool
  deriving DecidableEq, Repr

/-- The members of `VideoControllerApp` that `HandleStats` reads or writes. -/
structure VideoControllerApp where
  parameters_ : Parameters
  stats_count_ : Int
  deriving DecidableEq, Repr

/-- The app as constructed (`int stats_count_ = 0`), with its parameters set. -/
def VideoControllerApp.fresh (p : Parameters) : VideoControllerApp := ⟨p, 0⟩

/-- The calls `HandleStats` makes on its collaborators. -/
inductive AppEffect where
  /-- text written to `std::cerr` -/
  | cerr (text : String)
  /-- `log_.notice(msg)` -/
  | log_notice (msg : String)
  /-- `service_.stop()` -/
  | service_stop
  deriving DecidableEq, Repr

/-- The text `HandleStats` collects in `errors` for a report. -/
def stats_errors (stats : Stats) : String :=
  let errors := ""
  let errors := if stats.raw_frames < 5 then errors ++ "not enough raw frames; " else errors
  let errors := if stats.h264_frames < 5 then errors ++ "not enough h264 frames; " else errors
  let errors :=
    if stats.decoded_frames < 5 then errors ++ "not enough decoded frames; " else errors
  errors

/-- `errors.tellp()`: the number of characters written so far. -/
def tellp (errors : String) : Nat := errors.length

/-- `VideoControllerApp::HandleStats` of `mech/video_controller_app.h`. -/
def HandleStats (stats : Stats) : Exec AppEffect VideoControllerApp Unit := do
  let self0 ← read
  write { self0 with stats_count_ := wrap_int (self0.stats_count_ + 1) }
  let self ← read
  if self.parameters_.require_stats_good then
    let errors := stats_errors stats
    if tellp errors ≠ 0 then
      if self.stats_count_ ≤ 1 then
        emit (.cerr ("First stat report was bad, hope next one is better: " ++ errors ++ "\n"))
      else
        base.FailExec ("status report had errors:\n " ++ errors)
  if self.parameters_.max_stats ≠ 0 ∧ self.parameters_.max_stats ≤ self.stats_count_ then
    emit (.log_notice "Got required number of stats, quitting")
    emit .service_stop

/-- The stats notifications of a list delivered one after the other; a
notification is delivered only when the ones before it returned. -/
def deliver : List Stats → Exec AppEffect VideoControllerApp Unit
  | [] => pure ()
  | stats :: rest => do
    HandleStats stats
    deliver rest

/-- A report is bad when `errors.tellp()` is non-zero after the three checks. -/
def stats_bad (stats : Stats) : Prop := tellp (stats_errors stats) ≠ 0

instance (stats : Stats) : Decidable (stats_bad stats) :=
  inferInstanceAs (Decidable (tellp (stats_errors stats) ≠ 0))

/-- The app after `stats_count_++`. -/
def counted (app : VideoControllerApp) : VideoControllerApp :=
  { app with stats_count_ := wrap_int (app.stats_count_ + 1) }

/-- The condition under which `HandleStats` reaches `base::Fail`. -/
def fatal_report (app : VideoControllerApp) (stats : Stats) : Prop :=
  app.parameters_.require_stats_good = true ∧ stats_bad stats ∧ 1 < (counted app).stats_count_

/-- The condition under which `HandleStats` calls `service_.stop()`. -/
def cap_reached (app : VideoControllerApp) : Prop :=
  app.parameters_.max_stats ≠ 0 ∧ app.parameters_.max_stats ≤ (counted app).stats_count_

instance (app : VideoControllerApp) : Decidable (cap_reached app) :=
  inferInstanceAs (Decidable (app.parameters_.max_stats ≠ 0
    ∧ app.parameters_.max_stats ≤ (counted app).stats_count_))

/-! ## Lemmas: integers and the muxer -/

theorem wrap_int_of_range (x : Int) (h0 : -2147483648 ≤ x) (h1 : x < 2147483648) :
    wrap_int x = x := by
  unfold wrap_int; omega

namespace gst

theorem tail_pos_of_range (n : Nat) (h : n < 2147483648) :
    (max 0 (wrap_int (static_cast_int n - 4))).toNat = n - 4 := by
  unfold static_cast_int wrap_int
  omega

theorem substr_tail (name : String) (hlen : name.length < 2147483648) :
    substr name (max 0 (wrap_int (static_cast_int name.length - 4))).toNat
      = .returned (last_four name) := by
  rw [tail_pos_of_range _ hlen]
  have hpos : ¬ (name.length - 4 > name.length) := by omega
  unfold substr last_four
  rw [if_neg hpos]

theorem MuxerForVideoName_eq (name : String) (hlen : name.length < 2147483648) :
    MuxerForVideoName name = muxer_of_tail (last_four name) := by
  unfold MuxerForVideoName
  rw [substr_tail name hlen]
  rfl

theorem last_four_append (p t : String) (ht : t.length = 4) : last_four (p ++ t) = t := by
  unfold last_four
  have hdrop : (p ++ t).length - 4 = p.data.length := by
    simp [String.length_append, ht]
  rw [hdrop, String.data_append, List.drop_left]

theorem append_last_four (name : String) :
    (⟨name.data.take (name.length - 4)⟩ : String) ++ last_four name = name := by
  unfold last_four
  apply String.ext
  simp

theorem last_four_length (name : String) :
    (last_four name).length = name.length - (name.length - 4) := by
  show (name.data.drop (name.length - 4)).length = _
  rw [List.length_drop]
  rfl

theorem last_four_idem (name : String) : last_four (last_four name) = last_four name := by
  have hzero : (last_four name).length - 4 = 0 := by
    rw [last_four_length]
    omega
  show (⟨(last_four name).data.drop ((last_four name).length - 4)⟩ : String) = _
  rw [hzero, List.drop_zero]

theorem last_four_of_short (name : String) (h : name.length < 4) : last_four name = name := by
  have hzero : name.length - 4 = 0 := by omega
  show (⟨name.data.drop (name.length - 4)⟩ : String) = _
  rw [hzero, List.drop_zero]

theorem last_four_length_le (name : String) : (last_four name).length ≤ 4 := by
  rw [last_four_length]
  omega

end gst

/-! ## Lemmas: one stats notification, and a sequence of them -/

theorem stats_bad_iff (s : Stats) :
    stats_bad s ↔ (s.raw_frames < 5 ∨ s.h264_frames < 5 ∨ s.decoded_frames < 5) := by
  unfold stats_bad stats_errors tellp
  by_cases h1 : s.raw_frames < 5 <;> by_cases h2 : s.h264_frames < 5 <;>
    by_cases h3 : s.decoded_frames < 5 <;> simp [h1, h2, h3] <;> decide

theorem HandleStats_of_fatal (s : Stats) (app : VideoControllerApp) (h : fatal_report app s) :
    HandleStats s app
      = ⟨counted app, [], .failed ("status report had errors:\n " ++ stats_errors s)⟩ := by
  obtain ⟨h1, h2, h3⟩ := h
  have h2n : ¬ tellp (stats_errors s) = 0 := h2
  have h3n : ¬ wrap_int (app.stats_count_ + 1) ≤ 1 := not_le.mpr h3
  simp [HandleStats, bind, Exec.seq, Exec.read, Exec.write, Exec.emit, pure, Exec.ret,
    base.FailExec, base.Fail, h1, h2n, h3n, counted]

theorem HandleStats_of_not_fatal (s : Stats) (app : VideoControllerApp)
    (h : ¬ fatal_report app s) :
    HandleStats s app
      = ⟨counted app,
          (if app.parameters_.require_stats_good = true ∧ stats_bad s then
            [.cerr ("First stat report was bad, hope next one is better: "
              ++ stats_errors s ++ "\n")]
           else [])
          ++ (if cap_reached app then
            [.log_notice "Got required number of stats, quitting", .service_stop]
           else []),
          .returned ()⟩ := by
  by_cases h1 : app.parameters_.require_stats_good = true <;>
    by_cases h2 : tellp (stats_errors s) = 0 <;>
    by_cases h3 : wrap_int (app.stats_count_ + 1) ≤ 1 <;>
    by_cases hc : app.parameters_.max_stats ≠ 0
      ∧ app.parameters_.max_stats ≤ wrap_int (app.stats_count_ + 1) <;>
    first
    | (simp [HandleStats, bind, Exec.seq, Exec.read, Exec.write, Exec.emit, pure, Exec.ret,
        base.FailExec, base.Fail, stats_bad, cap_reached, counted, h1, h2, h3, hc]; done)
    | exact absurd ⟨h1, h2, not_le.mp h3⟩ h

theorem counted_parameters (app : VideoControllerApp) :
    (counted app).parameters_ = app.parameters_ := rfl

theorem counted_stats_count (app : VideoControllerApp) (h0 : 0 ≤ app.stats_count_)
    (h1 : app.stats_count_ + 1 < 2147483648) :
    (counted app).stats_count_ = app.stats_count_ + 1 := by
  show wrap_int (app.stats_count_ + 1) = app.stats_count_ + 1
  exact wrap_int_of_range _ (by omega) h1

theorem deliver_cons_of_fatal (s : Stats) (rest : List Stats) (app : VideoControllerApp)
    (h : fatal_report app s) :
    deliver (s :: rest) app
      = ⟨counted app, [], .failed ("status report had errors:\n " ++ stats_errors s)⟩ := by
  show Exec.seq (HandleStats s) (fun _ => deliver rest) app = _
  simp [Exec.seq, HandleStats_of_fatal s app h]

theorem deliver_cons_of_not_fatal (s : Stats) (rest : List Stats) (app : VideoControllerApp)
    (h : ¬ fatal_report app s) :
    (deliver (s :: rest) app).status = (deliver rest (counted app)).status
      ∧ (deliver (s :: rest) app).state = (deliver rest (counted app)).state := by
  show (Exec.seq (HandleStats s) (fun _ => deliver rest) app).status = _
    ∧ (Exec.seq (HandleStats s) (fun _ => deliver rest) app).state = _
  simp [Exec.seq, HandleStats_of_not_fatal s app h]

theorem deliver_state_of_returned (l : List Stats) :
    ∀ app : VideoControllerApp, 0 ≤ app.stats_count_ →
      app.stats_count_ + l.length < 2147483648 →
      (deliver l app).status = .returned () →
      (deliver l app).state = ⟨app.parameters_, app.stats_count_ + l.length⟩ := by
  induction l with
  | nil =>
    intro app _ _ _
    show app = _
    simp
  | cons s rest ih =>
    intro app h0 h1 hr
    simp only [List.length_cons, Nat.cast_add, Nat.cast_one] at h1
    by_cases hf : fatal_report app s
    · rw [deliver_cons_of_fatal s rest app hf] at hr
      cases hr
    · obtain ⟨e1, e2⟩ := deliver_cons_of_not_fatal s rest app hf
      have hc := counted_stats_count app h0 (by omega)
      rw [e1] at hr
      rw [e2, ih (counted app) (by omega) (by omega) hr, counted_parameters, hc]
      simp only [List.length_cons, Nat.cast_add, Nat.cast_one]
      congr 1
      omega

theorem deliver_lax (l : List Stats) :
    ∀ app : VideoControllerApp, app.parameters_.require_stats_good = false →
      (deliver l app).status = .returned () := by
  induction l with
  | nil => intro app _; rfl
  | cons s rest ih =>
    intro app hs
    have hf : ¬ fatal_report app s := fun h => by have h1 := h.1; simp [hs] at h1
    rw [(deliver_cons_of_not_fatal s rest app hf).1]
    exact ih (counted app) hs

theorem deliver_strict_iff (l : List Stats) :
    ∀ app : VideoControllerApp, app.parameters_.require_stats_good = true →
      1 ≤ app.stats_count_ → app.stats_count_ + l.length < 2147483648 →
      ((deliver l app).status = .returned () ↔ ∀ s ∈ l, ¬ stats_bad s) := by
  induction l with
  | nil => intro app _ _ _; simp [deliver, pure, Exec.ret]
  | cons s rest ih =>
    intro app hs h0 h1
    simp only [List.length_cons, Nat.cast_add, Nat.cast_one] at h1
    have hc := counted_stats_count app (by omega) (by omega)
    by_cases hb : stats_bad s
    · have hf : fatal_report app s := ⟨hs, hb, by omega⟩
      rw [deliver_cons_of_fatal s rest app hf]
      simp [hb]
    · have hf : ¬ fatal_report app s := fun h => hb h.2.1
      rw [(deliver_cons_of_not_fatal s rest app hf).1,
        ih (counted app) hs (by omega) (by omega)]
      simp [hb]

theorem deliver_strict_later_bad (goods : List Stats) (s : Stats) (rest : List Stats) :
    ∀ app : VideoControllerApp, app.parameters_.require_stats_good = true →
      1 ≤ app.stats_count_ → app.stats_count_ + goods.length + 1 < 2147483648 →
      (∀ g ∈ goods, ¬ stats_bad g) → stats_bad s →
      (deliver (goods ++ s :: rest) app).status
        = .failed ("status report had errors:\n " ++ stats_errors s) := by
  induction goods with
  | nil =>
    intro app hs h0 h1 _ hb
    simp only [List.length_nil, Nat.cast_zero, add_zero] at h1
    have hc := counted_stats_count app (by omega) (by omega)
    have hf : fatal_report app s := ⟨hs, hb, by omega⟩
    rw [List.nil_append, deliver_cons_of_fatal s rest app hf]
  | cons g gs ih =>
    intro app hs h0 h1 hg hb
    simp only [List.length_cons, Nat.cast_add, Nat.cast_one] at h1
    have hc := counted_stats_count app (by omega) (by omega)
    have hf : ¬ fatal_report app g := fun h => hg g (List.mem_cons_self _ _) h.2.1
    rw [List.cons_append, (deliver_cons_of_not_fatal g (gs ++ s :: rest) app hf).1]
    exact ih (counted app) hs (by omega) (by omega)
      (fun x hx => hg x (List.mem_cons_of_mem _ hx)) hb

theorem opening_report_not_fatal (p : Parameters) (s : Stats) :
    ¬ fatal_report (VideoControllerApp.fresh p) s := by
  intro h
  have h3 := h.2.2
  simp [counted, VideoControllerApp.fresh, wrap_int] at h3

theorem counted_fresh (p : Parameters) :
    counted (VideoControllerApp.fresh p) = ⟨p, 1⟩ := by
  simp [counted, VideoControllerApp.fresh, wrap_int]

/-! ## The shutdown handshake and the bus dispatch -/

namespace gst

/-- Claim C1. From a wrapper with no ticket stored, one quit request handled by
`HandleShutdown` on the engine thread, followed by the end-of-stream bus
message handled by `HandleBusMessage` on the engine thread with the null-state
transition succeeding, makes exactly these calls, in this order: the
end-of-stream event is sent, (two debug log lines,) the pipeline is set to
NULL, the ticket is released. Both calls return, and no ticket is stored
afterwards. -/
theorem shutdown_handshake_effects (env1 env2 : Env) (self : PipelineWrapper) (t : Ticket)
    (message : GstMessage)
    (hq : self.quit_request_ = none)
    (hth1 : env1.this_thread = self.gst_loop_thread_id)
    (hth2 : env2.this_thread = self.gst_loop_thread_id)
    (hty : message.type = GST_MESSAGE_EOS)
    (hrv : env2.set_state_null_rv = .SUCCESS) :
    Exec.seq (HandleShutdown env1 (some t)) (fun _ => HandleBusMessage env2 message) self
      = ⟨self,
          [.send_event_eos, .log_debug "shutdown requested -- sending end-of-stream",
            .log_debug "got EOS -- stopping pipeline", .set_state .NULL, .ticket_released t],
          .returned true⟩
    ∧ (Exec.seq (HandleShutdown env1 (some t)) (fun _ => HandleBusMessage env2 message)
          self).trace.filter Effect.isCommand
        = [.send_event_eos, .set_state .NULL, .ticket_released t]
    ∧ (Exec.seq (HandleShutdown env1 (some t)) (fun _ => HandleBusMessage env2 message)
          self).state.quit_request_ = none := by
  have key : Exec.seq (HandleShutdown env1 (some t)) (fun _ => HandleBusMessage env2 message)
      self
      = ⟨self,
          [.send_event_eos, .log_debug "shutdown requested -- sending end-of-stream",
            .log_debug "got EOS -- stopping pipeline", .set_state .NULL, .ticket_released t],
          .returned true⟩ := by
    cases self with
    | mk tid q =>
      simp at hq hth1 hth2
      subst hq
      simp [HandleShutdown, HandleBusMessage, bind, Exec.seq, Exec.read, Exec.BOOST_ASSERT, hth1,
        hth2, hty, hrv, Exec.ret, pure, Exec.emit, Exec.write, quit_request_assign,
        quit_request_reset, base.FailExec]
  rw [key]
  simp [Effect.isCommand, hq]

theorem shutdown_handshake_effects_witness :
    Exec.seq (HandleShutdown ⟨1, .FAILURE, false⟩ (some 7))
        (fun _ => HandleBusMessage ⟨1, .SUCCESS, true⟩
          ⟨GST_MESSAGE_EOS, "eos", "pipeline0", none, none, none⟩) ⟨1, none⟩
      = ⟨⟨1, none⟩,
          [.send_event_eos, .log_debug "shutdown requested -- sending end-of-stream",
            .log_debug "got EOS -- stopping pipeline", .set_state .NULL, .ticket_released 7],
          .returned true⟩ :=
  (shutdown_handshake_effects ⟨1, .FAILURE, false⟩ ⟨1, .SUCCESS, true⟩ ⟨1, none⟩ 7
    ⟨GST_MESSAGE_EOS, "eos", "pipeline0", none, none, none⟩ rfl rfl rfl rfl rfl).1

/-- Claim C2. With no ticket stored, `HandleBusMessage` on an end-of-stream
message never returns and makes no call at all, so no set-state command is
issued before the process ends, and the wrapper is unchanged: on the engine
thread it ends in `base::Fail("Unexpected EOS on pipeline")`, on any other
thread in the failed thread assertion. This holds whatever the set-state call
would have returned. -/
theorem eos_without_ticket_is_fatal (env : Env) (self : PipelineWrapper)
    (message : GstMessage)
    (hq : self.quit_request_ = none) (hty : message.type = GST_MESSAGE_EOS) :
    HandleBusMessage env message self
      = ⟨self, [],
          if env.this_thread = self.gst_loop_thread_id then
            .failed "Unexpected EOS on pipeline"
          else .assert_failed "std::this_thread::get_id() == gst_loop_->thread_id()"⟩ := by
  by_cases hth : env.this_thread = self.gst_loop_thread_id <;>
    simp [HandleBusMessage, bind, Exec.seq, Exec.read, Exec.BOOST_ASSERT, hth, hty, hq,
      base.FailExec, base.Fail]

theorem eos_without_ticket_is_fatal_witness :
    HandleBusMessage ⟨3, .SUCCESS, true⟩
        ⟨GST_MESSAGE_EOS, "eos", "pipeline0", none, none, none⟩ ⟨3, none⟩
      = ⟨⟨3, none⟩, [], .failed "Unexpected EOS on pipeline"⟩ :=
  eos_without_ticket_is_fatal ⟨3, .SUCCESS, true⟩ ⟨3, none⟩
    ⟨GST_MESSAGE_EOS, "eos", "pipeline0", none, none, none⟩ rfl rfl

/-- Claim C3. With a ticket already stored, a quit request delivered to
`HandleShutdown` ends in a failed assertion (`!quit_request_` on the engine
thread, the thread assertion elsewhere): the wrapper is unchanged, so the
stored ticket is kept and the new one is stored nowhere, and no call is made,
so no second end-of-stream event is sent. -/
theorem second_quit_request_rejected (env : Env) (self : PipelineWrapper)
    (ptr : QuitPostponerPtr) (t0 : Ticket)
    (hq : self.quit_request_ = some t0) :
    (HandleShutdown env ptr self).state = self
      ∧ (HandleShutdown env ptr self).state.quit_request_ = some t0
      ∧ (HandleShutdown env ptr self).trace = []
      ∧ (HandleShutdown env ptr self).status
          = .assert_failed (if env.this_thread = self.gst_loop_thread_id then "!quit_request_"
              else "std::this_thread::get_id() == gst_loop_->thread_id()") := by
  by_cases hth : env.this_thread = self.gst_loop_thread_id <;>
    simp [HandleShutdown, bind, Exec.seq, Exec.read, Exec.BOOST_ASSERT, hth, hq]

theorem second_quit_request_rejected_witness :
    (HandleShutdown ⟨1, .SUCCESS, false⟩ (some 8) ⟨1, some 7⟩).state = ⟨1, some 7⟩
      ∧ (HandleShutdown ⟨1, .SUCCESS, false⟩ (some 8) ⟨1, some 7⟩).trace = []
      ∧ (HandleShutdown ⟨1, .SUCCESS, false⟩ (some 8) ⟨1, some 7⟩).status
          = .assert_failed "!quit_request_" :=
  ⟨(second_quit_request_rejected ⟨1, .SUCCESS, false⟩ ⟨1, some 7⟩ (some 8) 7 rfl).1,
    (second_quit_request_rejected ⟨1, .SUCCESS, false⟩ ⟨1, some 7⟩ (some 8) 7 rfl).2.2.1,
    (second_quit_request_rejected ⟨1, .SUCCESS, false⟩ ⟨1, some 7⟩ (some 8) 7 rfl).2.2.2⟩

/-- Claim C7. For every wrapper state (ticket stored or not) and every error
message (with or without error object and debug detail), `HandleBusMessage`
never returns, leaves the wrapper unchanged (the ticket is not consumed) and
makes no call (the pipeline is not set to NULL): on the engine thread it ends
in `base::Fail` with the text built from the message, on any other thread in
the failed thread assertion. -/
theorem error_message_is_fatal (env : Env) (self : PipelineWrapper) (message : GstMessage)
    (hty : message.type = GST_MESSAGE_ERROR) :
    HandleBusMessage env message self
      = ⟨self, [],
          if env.this_thread = self.gst_loop_thread_id then
            .failed ("gstreamer pipeline error: " ++ error_msg message)
          else .assert_failed "std::this_thread::get_id() == gst_loop_->thread_id()"⟩ := by
  by_cases hth : env.this_thread = self.gst_loop_thread_id <;>
    simp [HandleBusMessage, bind, Exec.seq, Exec.read, Exec.BOOST_ASSERT, hth, hty,
      base.FailExec, base.Fail, GST_MESSAGE_EOS, GST_MESSAGE_ERROR]

theorem error_message_is_fatal_witness :
    HandleBusMessage ⟨1, .SUCCESS, false⟩
        ⟨GST_MESSAGE_ERROR, "error", "src0", none, some "boom", none⟩ ⟨1, some 7⟩
      = ⟨⟨1, some 7⟩, [], .failed "gstreamer pipeline error: boom\nDebug details: (NONE)"⟩ :=
  error_message_is_fatal ⟨1, .SUCCESS, false⟩ ⟨1, some 7⟩
    ⟨GST_MESSAGE_ERROR, "error", "src0", none, some "boom", none⟩ rfl

/-- Claim C8. A message of type state-changed, stream-status, tag, new-clock
or async-done makes `HandleBusMessage` make no call (nothing is logged, no
pipeline command) and leave the wrapper unchanged, whatever the debug level,
and on the engine thread it returns true. A message of any type other than
these five, end-of-stream and error also leaves the wrapper unchanged and, on
the engine thread, returns true, its only call being one bus log line made
exactly when debug logging is enabled. Off the engine thread the call ends in
the failed thread assertion instead. -/
theorem ignored_and_default_messages (env : Env) (self : PipelineWrapper)
    (message : GstMessage) :
    ((message.type = GST_MESSAGE_STATE_CHANGED ∨ message.type = GST_MESSAGE_STREAM_STATUS
        ∨ message.type = GST_MESSAGE_TAG ∨ message.type = GST_MESSAGE_NEW_CLOCK
        ∨ message.type = GST_MESSAGE_ASYNC_DONE) →
      HandleBusMessage env message self
        = ⟨self, [],
            if env.this_thread = self.gst_loop_thread_id then .returned true
            else .assert_failed "std::this_thread::get_id() == gst_loop_->thread_id()"⟩)
    ∧ ((message.type ≠ GST_MESSAGE_STATE_CHANGED ∧ message.type ≠ GST_MESSAGE_STREAM_STATUS
        ∧ message.type ≠ GST_MESSAGE_TAG ∧ message.type ≠ GST_MESSAGE_NEW_CLOCK
        ∧ message.type ≠ GST_MESSAGE_ASYNC_DONE ∧ message.type ≠ GST_MESSAGE_EOS
        ∧ message.type ≠ GST_MESSAGE_ERROR) →
      HandleBusMessage env message self
        = ⟨self,
            if env.this_thread = self.gst_loop_thread_id ∧ env.bus_debug_enabled = true then
              [.bus_log_debug (bus_log_line message)]
            else [],
            if env.this_thread = self.gst_loop_thread_id then .returned true
            else .assert_failed "std::this_thread::get_id() == gst_loop_->thread_id()"⟩) := by
  constructor
  · intro h
    by_cases hth : env.this_thread = self.gst_loop_thread_id <;>
      rcases h with h | h | h | h | h <;>
      simp [HandleBusMessage, bind, Exec.seq, Exec.read, Exec.BOOST_ASSERT, hth, h,
        Exec.ret, pure,
        GST_MESSAGE_EOS, GST_MESSAGE_ERROR, GST_MESSAGE_STATE_CHANGED,
        GST_MESSAGE_STREAM_STATUS, GST_MESSAGE_TAG, GST_MESSAGE_NEW_CLOCK,
        GST_MESSAGE_ASYNC_DONE]
  · rintro ⟨h1, h2, h3, h4, h5, h6, h7⟩
    by_cases hth : env.this_thread = self.gst_loop_thread_id <;>
      cases hd : env.bus_debug_enabled <;>
      simp [HandleBusMessage, bind, Exec.seq, Exec.read, Exec.BOOST_ASSERT, hth, h1, h2, h3,
        h4, h5, h6, h7, hd, Exec.ret, pure, Exec.emit]

theorem ignored_and_default_messages_witness :
    HandleBusMessage ⟨1, .SUCCESS, true⟩
        ⟨GST_MESSAGE_TAG, "tag", "src0", some "taglist;", none, none⟩ ⟨1, some 7⟩
      = ⟨⟨1, some 7⟩, [], .returned true⟩
    ∧ HandleBusMessage ⟨1, .SUCCESS, true⟩ ⟨4, "warning", "src0", none, none, none⟩ ⟨1, none⟩
      = ⟨⟨1, none⟩, [.bus_log_debug "message \x27warning\x27 from \x27src0\x27: no-struct"],
          .returned true⟩
    ∧ HandleBusMessage ⟨1, .SUCCESS, false⟩ ⟨4, "warning", "src0", none, none, none⟩ ⟨1, none⟩
      = ⟨⟨1, none⟩, [], .returned true⟩ :=
  ⟨(ignored_and_default_messages ⟨1, .SUCCESS, true⟩ ⟨1, some 7⟩
      ⟨GST_MESSAGE_TAG, "tag", "src0", some "taglist;", none, none⟩).1
      (Or.inr (Or.inr (Or.inl rfl))),
    (ignored_and_default_messages ⟨1, .SUCCESS, true⟩ ⟨1, none⟩
      ⟨4, "warning", "src0", none, none, none⟩).2 (by decide),
    (ignored_and_default_messages ⟨1, .SUCCESS, false⟩ ⟨1, none⟩
      ⟨4, "warning", "src0", none, none, none⟩).2 (by decide)⟩

/-- Claim C9. When `HandleBusMessage` or `HandleShutdown` is invoked on a thread
other than the engine loop's thread, the call ends in the failed thread
assertion with the wrapper unchanged and no call made: the ticket is neither
stored nor released, no event is sent, no state command is issued. -/
theorem thread_affinity_asserted (env : Env) (self : PipelineWrapper) (message : GstMessage)
    (ptr : QuitPostponerPtr) (h : env.this_thread ≠ self.gst_loop_thread_id) :
    HandleBusMessage env message self
        = ⟨self, [], .assert_failed "std::this_thread::get_id() == gst_loop_->thread_id()"⟩
      ∧ HandleShutdown env ptr self
        = ⟨self, [], .assert_failed "std::this_thread::get_id() == gst_loop_->thread_id()"⟩ := by
  constructor
  · simp [HandleBusMessage, bind, Exec.seq, Exec.read, Exec.BOOST_ASSERT, h]
  · simp [HandleShutdown, bind, Exec.seq, Exec.read, Exec.BOOST_ASSERT, h]

theorem thread_affinity_asserted_witness :
    HandleBusMessage ⟨2, .SUCCESS, true⟩
        ⟨GST_MESSAGE_EOS, "eos", "pipeline0", none, none, none⟩ ⟨1, some 7⟩
        = ⟨⟨1, some 7⟩, [],
            .assert_failed "std::this_thread::get_id() == gst_loop_->thread_id()"⟩
      ∧ HandleShutdown ⟨2, .SUCCESS, true⟩ (some 9) ⟨1, some 7⟩
        = ⟨⟨1, some 7⟩, [],
            .assert_failed "std::this_thread::get_id() == gst_loop_->thread_id()"⟩ :=
  thread_affinity_asserted ⟨2, .SUCCESS, true⟩ ⟨1, some 7⟩
    ⟨GST_MESSAGE_EOS, "eos", "pipeline0", none, none, none⟩ (some 9) (by decide)

end gst

/-! ## The stats exit policy -/

theorem HandleStats_after (p : Parameters) (pre : List Stats)
    (hlen : pre.length + 1 < 2147483648)
    (hr : (deliver pre (VideoControllerApp.fresh p)).status = .returned ()) :
    (deliver pre (VideoControllerApp.fresh p)).state = ⟨p, pre.length⟩
      ∧ (counted ⟨p, pre.length⟩).stats_count_ = (pre.length : Int) + 1 := by
  have h0 : (0 : Int) ≤ (VideoControllerApp.fresh p).stats_count_ := le_refl _
  have h1 : (VideoControllerApp.fresh p).stats_count_ + (pre.length : Int) < 2147483648 := by
    show (0 : Int) + (pre.length : Int) < 2147483648
    omega
  constructor
  · rw [deliver_state_of_returned pre _ h0 h1 hr]
    show (⟨p, 0 + (pre.length : Int)⟩ : VideoControllerApp) = _
    rw [zero_add]
  · exact counted_stats_count ⟨p, pre.length⟩ (by show (0 : Int) ≤ (pre.length : Int); omega)
      (by show (pre.length : Int) + 1 < 2147483648; omega)

/-- Claim C4. With `require_stats_good` on, from a freshly constructed app: a
first report with `raw_frames = 0` returns, its calls being the diagnostic on
`std::cerr` (and the stop request when the cap is already reached), and a
second report with `raw_frames = 0` ends in `base::Fail`. A report is bad
exactly when one of the three frame counts is below 5; a bad report delivered
after `pre` (all of which returned, fewer than 2^31 reports in all) is fatal
exactly when `pre` is not empty, that is when it is not the first report. -/
theorem strict_stats_first_report_tolerated (p : Parameters)
    (hs : p.require_stats_good = true) :
    (∀ s1 s2 : Stats, s1.raw_frames = 0 → s2.raw_frames = 0 →
      (HandleStats s1 (VideoControllerApp.fresh p)).status = .returned ()
      ∧ (HandleStats s1 (VideoControllerApp.fresh p)).trace
          = [.cerr ("First stat report was bad, hope next one is better: "
              ++ stats_errors s1 ++ "\n")]
            ++ (if p.max_stats ≠ 0 ∧ p.max_stats ≤ 1 then
              [.log_notice "Got required number of stats, quitting", .service_stop]
             else [])
      ∧ (HandleStats s2 (HandleStats s1 (VideoControllerApp.fresh p)).state).status
          = .failed ("status report had errors:\n " ++ stats_errors s2))
    ∧ (∀ s : Stats, stats_bad s
        ↔ (s.raw_frames < 5 ∨ s.h264_frames < 5 ∨ s.decoded_frames < 5))
    ∧ (∀ (pre : List Stats) (s : Stats), pre.length + 1 < 2147483648 →
        (deliver pre (VideoControllerApp.fresh p)).status = .returned () → stats_bad s →
        ((HandleStats s (deliver pre (VideoControllerApp.fresh p)).state).status
            = .failed ("status report had errors:\n " ++ stats_errors s) ↔ pre ≠ [])
        ∧ (pre = [] →
          (HandleStats s (deliver pre (VideoControllerApp.fresh p)).state).status
            = .returned ())) := by
  refine ⟨?_, stats_bad_iff, ?_⟩
  · intro s1 s2 h1 h2
    have hb1 : stats_bad s1 := (stats_bad_iff s1).mpr (Or.inl (by omega))
    have hb2 : stats_bad s2 := (stats_bad_iff s2).mpr (Or.inl (by omega))
    have hnf := opening_report_not_fatal p s1
    have hf : fatal_report ⟨p, 1⟩ s2 := by
      refine ⟨hs, hb2, ?_⟩
      rw [counted_stats_count ⟨p, 1⟩ (by show (0 : Int) ≤ 1; omega)
        (by show (1 : Int) + 1 < 2147483648; omega)]
      show (1 : Int) < 1 + 1
      omega
    rw [HandleStats_of_not_fatal s1 _ hnf]
    refine ⟨rfl, ?_, ?_⟩
    · have hc : cap_reached (VideoControllerApp.fresh p)
          ↔ (p.max_stats ≠ 0 ∧ p.max_stats ≤ 1) := by
        unfold cap_reached
        rw [counted_fresh]
        exact Iff.rfl
      have hsb : (VideoControllerApp.fresh p).parameters_.require_stats_good = true
          ∧ stats_bad s1 := ⟨hs, hb1⟩
      show (if (VideoControllerApp.fresh p).parameters_.require_stats_good = true
          ∧ stats_bad s1 then _ else _) ++ (if cap_reached (VideoControllerApp.fresh p) then _
          else _) = _
      rw [if_pos hsb]
      by_cases hcap : p.max_stats ≠ 0 ∧ p.max_stats ≤ 1
      · rw [if_pos (hc.mpr hcap), if_pos hcap]
      · rw [if_neg (fun h => hcap (hc.mp h)), if_neg hcap]
    · show (HandleStats s2 (counted (VideoControllerApp.fresh p))).status = _
      rw [counted_fresh, HandleStats_of_fatal s2 _ hf]
  · intro pre s hlen hr hb
    obtain ⟨hst, hcnt⟩ := HandleStats_after p pre hlen hr
    rw [hst]
    by_cases hpre : pre = []
    · have hnf : ¬ fatal_report ⟨p, (pre.length : Int)⟩ s := by
        intro h
        have h3 := h.2.2
        rw [hcnt, hpre] at h3
        simp at h3
      rw [HandleStats_of_not_fatal s _ hnf]
      exact ⟨⟨fun h => Status.noConfusion h, fun h => absurd hpre h⟩, fun _ => rfl⟩
    · have hpos : 0 < pre.length := List.length_pos.mpr hpre
      have hf : fatal_report ⟨p, (pre.length : Int)⟩ s := by
        refine ⟨hs, hb, ?_⟩
        rw [hcnt]
        omega
      rw [HandleStats_of_fatal s _ hf]
      exact ⟨⟨fun _ => hpre, fun _ => rfl⟩, fun h => absurd h hpre⟩

theorem strict_stats_first_report_tolerated_witness :
    (HandleStats ⟨0, 9, 9⟩ (VideoControllerApp.fresh ⟨0, true⟩)).status = .returned ()
      ∧ (HandleStats ⟨0, 7, 8⟩
          (HandleStats ⟨0, 9, 9⟩ (VideoControllerApp.fresh ⟨0, true⟩)).state).status
        = .failed ("status report had errors:\n " ++ stats_errors ⟨0, 7, 8⟩) :=
  ⟨((strict_stats_first_report_tolerated ⟨0, true⟩ rfl).1 ⟨0, 9, 9⟩ ⟨0, 7, 8⟩ rfl rfl).1,
    ((strict_stats_first_report_tolerated ⟨0, true⟩ rfl).1 ⟨0, 9, 9⟩ ⟨0, 7, 8⟩ rfl rfl).2.2⟩

/-- Counterexample to claim C5 as stated. With `require_stats_good` on and a
fresh app, the reports (10, 10, 10) then (0, 10, 10): the first is good and
returns, the second is the first bad report of the sequence, and it ends in
`base::Fail` instead of being tolerated. -/
theorem first_bad_report_after_good_is_fatal :
    ¬ stats_bad ⟨10, 10, 10⟩ ∧ stats_bad ⟨0, 10, 10⟩
      ∧ (HandleStats ⟨10, 10, 10⟩ (VideoControllerApp.fresh ⟨0, true⟩)).status = .returned ()
      ∧ (HandleStats ⟨0, 10, 10⟩
          (HandleStats ⟨10, 10, 10⟩ (VideoControllerApp.fresh ⟨0, true⟩)).state).status
        = .failed "status report had errors:\n not enough raw frames; " := by
  decide

/-- Claim C5, amended. With `require_stats_good` on, from a freshly constructed
app: the first report delivered always returns, bad or not; a sequence of
fewer than 2^31 reports is delivered without fatal failure exactly when no
report after the first one is bad; and a bad report that comes after the
first report, with only good reports between the first report and it, ends in
`base::Fail`, whether the first report was good or bad (whatever follows it is
not delivered). -/
theorem strict_stats_only_first_report_tolerated (p : Parameters)
    (hs : p.require_stats_good = true) :
    (∀ first : Stats, (HandleStats first (VideoControllerApp.fresh p)).status = .returned ())
    ∧ (∀ (first : Stats) (rest : List Stats), rest.length + 1 < 2147483648 →
        ((deliver (first :: rest) (VideoControllerApp.fresh p)).status = .returned ()
          ↔ ∀ s ∈ rest, ¬ stats_bad s))
    ∧ (∀ (first : Stats) (goods : List Stats) (s : Stats) (rest : List Stats),
        goods.length + 2 < 2147483648 → (∀ g ∈ goods, ¬ stats_bad g) → stats_bad s →
        (deliver (first :: (goods ++ s :: rest)) (VideoControllerApp.fresh p)).status
          = .failed ("status report had errors:\n " ++ stats_errors s)) := by
  have hs1 : (⟨p, 1⟩ : VideoControllerApp).parameters_.require_stats_good = true := hs
  refine ⟨?_, ?_, ?_⟩
  · intro first
    rw [HandleStats_of_not_fatal first _ (opening_report_not_fatal p first)]
  · intro first rest hlen
    rw [(deliver_cons_of_not_fatal first rest _ (opening_report_not_fatal p first)).1,
      counted_fresh]
    exact deliver_strict_iff rest ⟨p, 1⟩ hs1 (by show (1 : Int) ≤ 1; omega)
      (by show (1 : Int) + (rest.length : Int) < 2147483648; omega)
  · intro first goods s rest hlen hg hb
    rw [(deliver_cons_of_not_fatal first _ _ (opening_report_not_fatal p first)).1,
      counted_fresh]
    exact deliver_strict_later_bad goods s rest ⟨p, 1⟩ hs1 (by show (1 : Int) ≤ 1; omega)
      (by show (1 : Int) + (goods.length : Int) + 1 < 2147483648; omega) hg hb

theorem strict_stats_only_first_report_tolerated_witness :
    (deliver [⟨0, 0, 0⟩, ⟨9, 9, 9⟩, ⟨3, 9, 9⟩, ⟨9, 9, 9⟩]
        (VideoControllerApp.fresh ⟨0, true⟩)).status
      = .failed ("status report had errors:\n " ++ stats_errors ⟨3, 9, 9⟩) :=
  (strict_stats_only_first_report_tolerated ⟨0, true⟩ rfl).2.2 ⟨0, 0, 0⟩ [⟨9, 9, 9⟩] ⟨3, 9, 9⟩
    [⟨9, 9, 9⟩] (by decide) (by decide) (by decide)

/-- Claim C6. With `require_stats_good` off, from a freshly constructed app and
for fewer than 2^31 notifications: the notifications `pre` all return and
leave the count at their number; the next notification, the k-th with
`k = pre.length + 1`, returns and leaves the count at k (one more, whatever
`max_stats` is); its calls are the notice and `service_.stop()` exactly when
`max_stats` is non-zero and `max_stats ≤ k`, and none otherwise. So for
`max_stats = n > 0` no stop is requested for k < n and one is for k = n, and
for `max_stats = 0` none ever is. -/
theorem stats_cap_counts_each_notification_once (p : Parameters)
    (hs : p.require_stats_good = false) (pre : List Stats) (s : Stats)
    (hlen : pre.length + 1 < 2147483648) :
    (deliver pre (VideoControllerApp.fresh p)).status = .returned ()
    ∧ (deliver pre (VideoControllerApp.fresh p)).state.stats_count_ = (pre.length : Int)
    ∧ (HandleStats s (deliver pre (VideoControllerApp.fresh p)).state).status = .returned ()
    ∧ (HandleStats s (deliver pre (VideoControllerApp.fresh p)).state).state
        = ⟨p, (pre.length : Int) + 1⟩
    ∧ (HandleStats s (deliver pre (VideoControllerApp.fresh p)).state).trace
        = (if p.max_stats ≠ 0 ∧ p.max_stats ≤ (pre.length : Int) + 1 then
            [.log_notice "Got required number of stats, quitting", .service_stop]
          else [])
    ∧ (AppEffect.service_stop ∈
          (HandleStats s (deliver pre (VideoControllerApp.fresh p)).state).trace
        ↔ (p.max_stats ≠ 0 ∧ p.max_stats ≤ (pre.length : Int) + 1)) := by
  have hr : (deliver pre (VideoControllerApp.fresh p)).status = .returned () :=
    deliver_lax pre _ hs
  obtain ⟨hst, hcnt⟩ := HandleStats_after p pre hlen hr
  have hlax : (⟨p, (pre.length : Int)⟩ : VideoControllerApp).parameters_.require_stats_good
      = false := hs
  have hnf : ¬ fatal_report ⟨p, (pre.length : Int)⟩ s := fun h => by
    have h1 := h.1
    rw [hlax] at h1
    cases h1
  have hno : ¬ ((⟨p, (pre.length : Int)⟩ : VideoControllerApp).parameters_.require_stats_good
      = true ∧ stats_bad s) := fun h => by
    have h1 := h.1
    rw [hlax] at h1
    cases h1
  have hc : cap_reached ⟨p, (pre.length : Int)⟩
      ↔ (p.max_stats ≠ 0 ∧ p.max_stats ≤ (pre.length : Int) + 1) := by
    unfold cap_reached
    rw [hcnt]
  have htrace : (HandleStats s ⟨p, (pre.length : Int)⟩).trace
      = (if p.max_stats ≠ 0 ∧ p.max_stats ≤ (pre.length : Int) + 1 then
          [.log_notice "Got required number of stats, quitting", .service_stop]
        else []) := by
    rw [HandleStats_of_not_fatal s _ hnf]
    show (if _ then _ else _) ++ (if cap_reached ⟨p, (pre.length : Int)⟩ then _ else _) = _
    rw [if_neg hno, List.nil_append]
    by_cases hcap : p.max_stats ≠ 0 ∧ p.max_stats ≤ (pre.length : Int) + 1
    · rw [if_pos (hc.mpr hcap), if_pos hcap]
    · rw [if_neg (fun h => hcap (hc.mp h)), if_neg hcap]
  rw [hst]
  refine ⟨hr, rfl, ?_, ?_, htrace, ?_⟩
  · rw [HandleStats_of_not_fatal s _ hnf]
  · rw [HandleStats_of_not_fatal s _ hnf]
    show counted ⟨p, (pre.length : Int)⟩ = _
    have hp : (counted ⟨p, (pre.length : Int)⟩).parameters_ = p := rfl
    cases hco : counted ⟨p, (pre.length : Int)⟩ with
    | mk q c =>
      rw [hco] at hcnt hp
      simp only at hcnt hp
      rw [hcnt, hp]
  · rw [htrace]
    by_cases hcap : p.max_stats ≠ 0 ∧ p.max_stats ≤ (pre.length : Int) + 1
    · rw [if_pos hcap]
      exact ⟨fun _ => hcap, fun _ => by simp⟩
    · rw [if_neg hcap]
      exact ⟨fun h => absurd h (List.not_mem_nil _), fun h => absurd h hcap⟩

theorem stats_cap_counts_each_notification_once_witness :
    AppEffect.service_stop ∉
        (HandleStats ⟨9, 9, 9⟩ (deliver [] (VideoControllerApp.fresh ⟨3, false⟩)).state).trace
    ∧ AppEffect.service_stop ∉
        (HandleStats ⟨9, 9, 9⟩
          (deliver [⟨0, 0, 0⟩] (VideoControllerApp.fresh ⟨3, false⟩)).state).trace
    ∧ AppEffect.service_stop ∈
        (HandleStats ⟨9, 9, 9⟩
          (deliver [⟨0, 0, 0⟩, ⟨9, 9, 9⟩] (VideoControllerApp.fresh ⟨3, false⟩)).state).trace
    ∧ (HandleStats ⟨9, 9, 9⟩
          (deliver [⟨0, 0, 0⟩, ⟨9, 9, 9⟩] (VideoControllerApp.fresh ⟨3, false⟩)).state).state
        = ⟨⟨3, false⟩, 3⟩ :=
  ⟨fun h => absurd ((stats_cap_counts_each_notification_once ⟨3, false⟩ rfl [] ⟨9, 9, 9⟩
      (by decide)).2.2.2.2.2.mp h) (by decide),
    fun h => absurd ((stats_cap_counts_each_notification_once ⟨3, false⟩ rfl [⟨0, 0, 0⟩]
      ⟨9, 9, 9⟩ (by decide)).2.2.2.2.2.mp h) (by decide),
    (stats_cap_counts_each_notification_once ⟨3, false⟩ rfl [⟨0, 0, 0⟩, ⟨9, 9, 9⟩] ⟨9, 9, 9⟩
      (by decide)).2.2.2.2.2.mpr (by decide),
    (stats_cap_counts_each_notification_once ⟨3, false⟩ rfl [⟨0, 0, 0⟩, ⟨9, 9, 9⟩] ⟨9, 9, 9⟩
      (by decide)).2.2.2.1⟩

/-! ## The muxer chosen for a file name -/

namespace gst

theorem muxer_of_tail_not_thrown (tail : String) (w : String) :
    muxer_of_tail tail ≠ .thrown w := by
  unfold muxer_of_tail
  split_ifs <;> exact fun h => Status.noConfusion h

theorem muxer_of_tail_other (tail : String) (h1 : tail ≠ ".mkv") (h2 : tail ≠ ".avi")
    (h3 : tail ≠ ".mp4") :
    muxer_of_tail tail = .failed ("Unknown h264 savefile extension " ++ tail) := by
  unfold muxer_of_tail
  rw [if_neg h1, if_neg h2, if_neg h3]

theorem last_four_ne_of_no_suffix (name ext : String) (h : ∀ p : String, name ≠ p ++ ext) :
    last_four name ≠ ext := by
  intro he
  apply h ⟨name.data.take (name.length - 4)⟩
  rw [← he]
  exact (append_last_four name).symm

/-- Claim C10. For a name whose size fits in `int` (fewer than 2^31 characters;
beyond that the result of the cast is implementation-defined),
`MuxerForVideoName` is decided by the last four characters: a name
ending in ".mkv" gives "matroskamux streamable=true", in ".avi" gives
"avimux", in ".mp4" gives "mp4mux"; any other name ends in `base::Fail` naming
its last four characters; a name shorter than four characters (the empty one
too) ends in `base::Fail` naming the whole name; the result is the one of the
last four characters taken as a name; and `substr` never throws. -/
theorem MuxerForVideoName_by_tail (name : String) (hlen : name.length < 2147483648) :
    (∀ p : String, name = p ++ ".mkv" →
      MuxerForVideoName name = .returned "matroskamux streamable=true")
    ∧ (∀ p : String, name = p ++ ".avi" → MuxerForVideoName name = .returned "avimux")
    ∧ (∀ p : String, name = p ++ ".mp4" → MuxerForVideoName name = .returned "mp4mux")
    ∧ ((∀ p : String, name ≠ p ++ ".mkv") → (∀ p : String, name ≠ p ++ ".avi") →
        (∀ p : String, name ≠ p ++ ".mp4") →
        MuxerForVideoName name
          = .failed ("Unknown h264 savefile extension " ++ last_four name))
    ∧ (name.length < 4 →
        MuxerForVideoName name = .failed ("Unknown h264 savefile extension " ++ name))
    ∧ MuxerForVideoName name = MuxerForVideoName (last_four name)
    ∧ (∀ w : String, MuxerForVideoName name ≠ .thrown w) := by
  have heq := MuxerForVideoName_eq name hlen
  refine ⟨?_, ?_, ?_, ?_, ?_, ?_, ?_⟩
  · intro p hp
    rw [heq, hp, last_four_append p ".mkv" (by decide)]
    decide
  · intro p hp
    rw [heq, hp, last_four_append p ".avi" (by decide)]
    decide
  · intro p hp
    rw [heq, hp, last_four_append p ".mp4" (by decide)]
    decide
  · intro h1 h2 h3
    rw [heq]
    exact muxer_of_tail_other _ (last_four_ne_of_no_suffix name _ h1)
      (last_four_ne_of_no_suffix name _ h2) (last_four_ne_of_no_suffix name _ h3)
  · intro hshort
    have hne : ∀ ext : String, ext.length = 4 → name ≠ ext := fun ext he h => by
      rw [h, he] at hshort
      omega
    rw [heq, last_four_of_short name hshort]
    exact muxer_of_tail_other name (hne _ (by decide)) (hne _ (by decide)) (hne _ (by decide))
  · have hle := last_four_length_le name
    rw [heq, MuxerForVideoName_eq (last_four name) (by omega), last_four_idem]
  · intro w
    rw [heq]
    exact muxer_of_tail_not_thrown _ w

theorem MuxerForVideoName_by_tail_witness :
    MuxerForVideoName "clip.mkv" = .returned "matroskamux streamable=true"
      ∧ MuxerForVideoName "clip.avi" = .returned "avimux"
      ∧ MuxerForVideoName "clip.mp4" = .returned "mp4mux"
      ∧ MuxerForVideoName "mkv" = .failed "Unknown h264 savefile extension mkv"
      ∧ MuxerForVideoName "" = .failed "Unknown h264 savefile extension "
      ∧ MuxerForVideoName "clip.MKV" = .failed "Unknown h264 savefile extension .MKV" :=
  ⟨(MuxerForVideoName_by_tail "clip.mkv" (by decide)).1 "clip" (by decide),
    (MuxerForVideoName_by_tail "clip.avi" (by decide)).2.1 "clip" (by decide),
    (MuxerForVideoName_by_tail "clip.mp4" (by decide)).2.2.1 "clip" (by decide),
    (MuxerForVideoName_by_tail "mkv" (by decide)).2.2.2.2.1 (by decide),
    (MuxerForVideoName_by_tail "" (by decide)).2.2.2.2.1 (by decide),
    ((MuxerForVideoName_by_tail "clip.MKV" (by decide)).2.2.2.2.2.1).trans (by decide)⟩

end gst

end mech

end mjmech
